import Mathlib

/-!
Verification development for the mdmp3lyricstotxt tool (src/main.rs).

The program discovers `.mp3` files under an input path, reads each file's
ID3v2 tag, selects a lyrics text from the tag by a fixed four-rank
precedence, and aggregates the per-file texts into one output document.

The embedding below models:
  - the ID3 tag capability surface the program consumes from the external
    `id3` crate (unsynchronised-lyric frames, comment frames, user-defined
    text frames, and frame lookup by 4-character identifier with an
    optional textual view of the content);
  - the selector `extract_lyrics_from_file` (its pure part, operating on a
    parsed tag, is `extract_lyrics_from_tag`);
  - the aggregator `extract_all_lyrics`;
  - the discovery function `find_mp3_files`, over an abstract filesystem,
    with the Rust `Path::extension` semantics made explicit.
-/

/-- An unsynchronised-lyric (USLT) record, as enumerated by `tag.lyrics()`:
language, description, text. -/
structure Lyrics where
  lang : String
  description : String
  text : String
deriving DecidableEq, Repr

/-- A comment (COMM) record, as enumerated by `tag.comments()`: language,
description, text. -/
structure Comment where
  lang : String
  description : String
  text : String
deriving DecidableEq, Repr

/-- A user-defined text (TXXX) record, as enumerated by
`tag.extended_texts()`: description and value. -/
structure ExtendedText where
  description : String
  value : String
deriving DecidableEq, Repr

/-- A raw frame as seen through `TagLike::get` followed by
`frame.content().text()`: its 4-character identifier and the optional
textual view of its content (`none` when the content is not representable
as text). -/
structure Frame where
  id : String
  text : Option String
deriving DecidableEq, Repr

/-- The ID3v2 tag capability surface consumed by `extract_lyrics_from_file`:
the enumerations of USLT, COMM and TXXX records in the tag's order, and the
list of raw frames that backs identifier lookup. -/
structure Tag where
  lyricsFrames : List Lyrics
  comments : List Comment
  extendedTexts : List ExtendedText
  frames : List Frame
deriving DecidableEq, Repr

/-- Error produced when `Tag::read_from_path` fails; carries the
human-readable cause attached by `with_context`. -/
structure TagError where
  cause : String
deriving DecidableEq, Repr

/-- Lookup of `TagLike::get(&tag, frame_id)`: the first frame whose
identifier matches. -/
def Tag.get (tag : Tag) (frame_id : String) : Option Frame :=
  tag.frames.find? (fun fr => fr.id == frame_id)

/-- The identifier list of the rank-4 loop in `extract_lyrics_from_file`. -/
def lyricFrameIds : List String :=
  ["LYRICS", "SYLT", "LYRW", "UNSYNCEDLYRICS"]

/-- The rank-4 loop of `extract_lyrics_from_file`: for each identifier in
order, look the frame up; if present and its content has a textual view,
return that text, otherwise continue with the next identifier. -/
def lookupFrameIds (tag : Tag) : List String → Option String
  | [] => none
  | frame_id :: rest =>
    match Tag.get tag frame_id with
    | some frame =>
      match frame.text with
      | some content => some content
      | none => lookupFrameIds tag rest
    | none => lookupFrameIds tag rest

/-- The pure body of `extract_lyrics_from_file`, after the tag has been
read: first USLT frame if any; else first COMM frame described `LYRICS`;
else first TXXX frame described `LYRICS`; else the rank-4 identifier
lookup. -/
def extract_lyrics_from_tag (tag : Tag) : Option String :=
  match tag.lyricsFrames with
  | lyrics_frame :: _ => some lyrics_frame.text
  | [] =>
    match tag.comments.find? (fun c => c.description == "LYRICS") with
    | some comment => some comment.text
    | none =>
      match tag.extendedTexts.find? (fun t => t.description == "LYRICS") with
      | some t => some t.value
      | none => lookupFrameIds tag lyricFrameIds

/-- A file as the aggregator sees it: its display path and the result of
`Tag::read_from_path` on it. -/
structure Mp3File where
  displayPath : String
  readResult : Except TagError Tag

/-- `extract_lyrics_from_file`: propagate a tag-read failure via `?`,
otherwise run the selector on the parsed tag. -/
def extract_lyrics_from_file (f : Mp3File) : Except TagError (Option String) :=
  match f.readResult with
  | Except.error e => Except.error e
  | Except.ok tag => Except.ok (extract_lyrics_from_tag tag)

/-- The per-file `match` of the aggregator loop: found lyrics get a
trailing newline; no lyrics or a read failure contribute a placeholder
only when `include_names` is set. -/
def processFile (include_names : Bool) (f : Mp3File) : String :=
  match extract_lyrics_from_file f with
  | Except.ok (some lyrics) => lyrics ++ "\n"
  | Except.ok none => if include_names then "[No lyrics found]\n" else ""
  | Except.error _ => if include_names then "[Failed to extract lyrics]\n" else ""

/-- `extract_all_lyrics`: the enumerated loop over the file list, pushing
the optional separator, the optional `File:` header and the per-file body
onto the accumulated document. -/
def extract_all_lyrics (mp3_files : List Mp3File) (include_names : Bool)
    (add_separator : Bool) (separator_text : String) : String :=
  mp3_files.enum.foldl
    (fun all_lyrics p =>
      all_lyrics ++
        (if p.1 > 0 && add_separator then "\n" ++ separator_text ++ "\n" else "") ++
        (if include_names then "File: " ++ p.2.displayPath ++ "\n\n" else "") ++
        processFile include_names p.2)
    ""

/-- Per-file section body as the specification states it in its formatting
rules: found text plus newline, or a placeholder marker gated on
`include_names`. -/
def spec_section_body (include_names : Bool) (f : Mp3File) : String :=
  match f.readResult with
  | Except.error _ => if include_names then "[Failed to extract lyrics]\n" else ""
  | Except.ok tag =>
    match extract_lyrics_from_tag tag with
    | some text => text ++ "\n"
    | none => if include_names then "[No lyrics found]\n" else ""

/-- Per-file section as the specification states it: optional separator
when the zero-based index is positive, optional `File:` header, then the
body. -/
def spec_file_section (include_names : Bool) (add_separator : Bool)
    (separator_text : String) (i : Nat) (f : Mp3File) : String :=
  (if i > 0 && add_separator then "\n" ++ separator_text ++ "\n" else "") ++
  (if include_names then "File: " ++ f.displayPath ++ "\n\n" else "") ++
  spec_section_body include_names f

/-- Concatenation of the spec-side sections of a file list, the first file
carrying index `i`. -/
def spec_sections (include_names : Bool) (add_separator : Bool)
    (separator_text : String) : Nat → List Mp3File → String
  | _, [] => ""
  | i, f :: rest =>
    spec_file_section include_names add_separator separator_text i f ++
      spec_sections include_names add_separator separator_text (i + 1) rest

/-- The aggregated document as the specification's formatting rules build
it: sections in list order, indices starting at zero. -/
def spec_document (mp3_files : List Mp3File) (include_names : Bool)
    (add_separator : Bool) (separator_text : String) : String :=
  spec_sections include_names add_separator separator_text 0 mp3_files

lemma lookupFrameIds_eq_findSome (tag : Tag) (ids : List String) :
    lookupFrameIds tag ids =
      ids.findSome? (fun frame_id => (Tag.get tag frame_id).bind Frame.text) := by
  induction ids with
  | nil => rfl
  | cons frame_id rest ih =>
    simp only [lookupFrameIds, List.findSome?_cons]
    cases hfind : Tag.get tag frame_id with
    | none => simpa using ih
    | some fr =>
      cases htext : fr.text with
      | none => simp [htext, ih]
      | some t => simp [htext]

lemma lookupFrameIds_eq_head (tag : Tag) (ids : List String) :
    lookupFrameIds tag ids =
      (ids.filterMap (fun frame_id => (Tag.get tag frame_id).bind Frame.text)).head? := by
  rw [lookupFrameIds_eq_findSome]
  simp

lemma processFile_eq_spec_body (include_names : Bool) (f : Mp3File) :
    processFile include_names f = spec_section_body include_names f := by
  cases hr : f.readResult with
  | error e => simp [processFile, spec_section_body, extract_lyrics_from_file, hr]
  | ok tag =>
    cases hx : extract_lyrics_from_tag tag with
    | none => simp [processFile, spec_section_body, extract_lyrics_from_file, hr, hx]
    | some s => simp [processFile, spec_section_body, extract_lyrics_from_file, hr, hx]

lemma extract_all_lyrics_go (include_names : Bool) (add_separator : Bool)
    (separator_text : String) (files : List Mp3File) :
    ∀ (n : Nat) (acc : String),
      (List.enumFrom n files).foldl
        (fun all_lyrics p =>
          all_lyrics ++
            (if p.1 > 0 && add_separator then "\n" ++ separator_text ++ "\n" else "") ++
            (if include_names then "File: " ++ p.2.displayPath ++ "\n\n" else "") ++
            processFile include_names p.2)
        acc =
      acc ++ spec_sections include_names add_separator separator_text n files := by
  induction files with
  | nil =>
    intro n acc
    simp [spec_sections, String.append_empty]
  | cons f rest ih =>
    intro n acc
    simp only [List.enumFrom, List.foldl_cons]
    rw [ih (n + 1)]
    rw [processFile_eq_spec_body]
    simp only [spec_sections, spec_file_section, String.append_assoc]

lemma extract_all_lyrics_eq_spec (files : List Mp3File) (include_names : Bool)
    (add_separator : Bool) (separator_text : String) :
    extract_all_lyrics files include_names add_separator separator_text =
      spec_document files include_names add_separator separator_text := by
  rw [extract_all_lyrics, spec_document, List.enum]
  rw [extract_all_lyrics_go include_names add_separator separator_text files 0 ""]
  exact String.empty_append _

lemma spec_sections_append (include_names : Bool) (add_separator : Bool)
    (separator_text : String) (xs ys : List Mp3File) :
    ∀ n : Nat,
      spec_sections include_names add_separator separator_text n (xs ++ ys) =
        spec_sections include_names add_separator separator_text n xs ++
          spec_sections include_names add_separator separator_text (n + xs.length) ys := by
  induction xs with
  | nil =>
    intro n
    simp [spec_sections, String.empty_append]
  | cons x rest ih =>
    intro n
    simp only [List.cons_append, spec_sections, List.append_eq, List.length_cons]
    rw [ih (n + 1)]
    have harith : n + (rest.length + 1) = n + 1 + rest.length := by omega
    rw [harith, String.append_assoc]

/-- The kind of filesystem object a path names: regular file, directory, or
nothing at all. -/
inductive FsKind where
  | file
  | dir
  | missing
deriving DecidableEq, Repr

/-- A filesystem path, with its final component (the file name) made
explicit so that extension extraction can be stated on it. -/
structure FsPath where
  full : String
  fileName : String
deriving DecidableEq, Repr

/-- An abstract filesystem: what kind of object each path names, and the
sequence of entry paths a directory walk yields for a root path and a
recursion flag, in traversal order. -/
structure FileSystem where
  kind : FsPath → FsKind
  entries : FsPath → Bool → List FsPath

/-- Text after the last dot of a character list, when a dot occurs. -/
def afterLastDot : List Char → Option (List Char)
  | [] => none
  | c :: rest =>
    match afterLastDot rest with
    | some e => some e
    | none => if c = '.' then some rest else none

/-- The Rust `Path::extension` semantics on a file name: the portion after
the final dot, and no extension when the name has no dot or its only dot
is the leading character (so a file named `.mp3` has no extension). -/
def rustExtension (s : String) : Option String :=
  match s.toList with
  | [] => none
  | _ :: rest => (afterLastDot rest).map (fun l => String.mk l)

/-- Error raised by `find_mp3_files`: the named file is not an MP3, or the
input path does not exist. -/
inductive FindError where
  | NotAnMp3
  | PathNotFound
deriving DecidableEq, Repr

/-- `find_mp3_files`: a named regular file is accepted alone iff its
extension is literally `mp3`; a directory contributes the walked entries
that are regular files with extension `mp3`; a path that is neither fails
with `PathNotFound`. -/
def find_mp3_files (fs : FileSystem) (input_path : FsPath) (recursive : Bool) :
    Except FindError (List FsPath) :=
  match fs.kind input_path with
  | FsKind.file =>
    if rustExtension input_path.fileName = some "mp3" then
      Except.ok [input_path]
    else
      Except.error FindError.NotAnMp3
  | FsKind.dir =>
    Except.ok ((fs.entries input_path recursive).filter
      (fun p => decide (fs.kind p = FsKind.file ∧ rustExtension p.fileName = some "mp3")))
  | FsKind.missing => Except.error FindError.PathNotFound

/-- A synthetic tag holding an unsynchronised-lyric frame with text `A` and
a comment frame described `LYRICS` with text `B`. -/
def tagAB : Tag :=
  { lyricsFrames := [{ lang := "eng", description := "", text := "A" }]
    comments := [{ lang := "eng", description := "LYRICS", text := "B" }]
    extendedTexts := []
    frames := [] }

/-- A synthetic tag whose only candidate is a SYLT frame with a textual
view available. -/
def syltTag : Tag :=
  { lyricsFrames := []
    comments := []
    extendedTexts := []
    frames := [{ id := "SYLT", text := some "timed words" }] }

/-- A synthetic tag whose only candidate is a `LYRICS`-described
user-defined text frame with value `X`. -/
def txxxTag : Tag :=
  { lyricsFrames := []
    comments := []
    extendedTexts := [{ description := "LYRICS", value := "X" }]
    frames := [] }

/-- A tag with no frames at all. -/
def emptyTag : Tag :=
  { lyricsFrames := [], comments := [], extendedTexts := [], frames := [] }

/-- A tag whose first unsynchronised-lyric frame carries the empty string. -/
def emptyTextTag : Tag :=
  { lyricsFrames := [{ lang := "eng", description := "", text := "" }]
    comments := []
    extendedTexts := []
    frames := [] }

/-- A tag used to exhibit determinism of the selector on one fixed input. -/
def mixedTag : Tag :=
  { lyricsFrames := []
    comments := [{ lang := "eng", description := "other", text := "not lyrics" }]
    extendedTexts := []
    frames := [{ id := "LYRW", text := some "legacy words" }] }

/-- C1: whenever the tag has at least one unsynchronised-lyric frame, the
selector returns the text of the first such frame in enumeration order,
whatever its language or description and whatever the lower-rank frames
hold; in particular USLT text `A` beats a `LYRICS` comment with text `B`. -/
theorem uslt_first_wins (tag : Tag) (f : Lyrics) (fs : List Lyrics)
    (h : tag.lyricsFrames = f :: fs) :
    extract_lyrics_from_tag tag = some f.text := by
  simp [extract_lyrics_from_tag, h]

theorem uslt_first_wins_witness :
    tagAB.lyricsFrames = { lang := "eng", description := "", text := "A" } :: [] ∧
    extract_lyrics_from_tag tagAB = some "A" :=
  ⟨rfl, uslt_first_wins tagAB { lang := "eng", description := "", text := "A" } [] rfl⟩

/-- C2: with no unsynchronised-lyric frame, no `LYRICS` comment and no
`LYRICS` user-defined text frame, the selector walks the identifier list
`LYRICS, SYLT, LYRW, UNSYNCEDLYRICS` in order and returns the first looked
up frame content exposing a textual view; a tag whose only candidate is a
SYLT frame with a textual view yields that text. -/
theorem rank4_identifier_lookup (tag : Tag)
    (h1 : tag.lyricsFrames = [])
    (h2 : tag.comments.find? (fun c => c.description == "LYRICS") = none)
    (h3 : tag.extendedTexts.find? (fun t => t.description == "LYRICS") = none) :
    extract_lyrics_from_tag tag =
      (lyricFrameIds.filterMap
        (fun frame_id => (Tag.get tag frame_id).bind Frame.text)).head? := by
  simp only [extract_lyrics_from_tag, h1, h2, h3]
  exact lookupFrameIds_eq_head tag lyricFrameIds

theorem rank4_identifier_lookup_witness :
    extract_lyrics_from_tag syltTag = some "timed words" := by
  rw [rank4_identifier_lookup syltTag rfl rfl rfl]
  decide

/-- C5: with no unsynchronised-lyric frame, the selector returns the text
of the first comment frame whose description is literally `LYRICS`; when no
such comment exists, it returns the value of the first user-defined text
frame whose description is literally `LYRICS`; a tag with only such a
user-defined text frame with value `X` yields `X`. -/
theorem comment_then_usertext_fallback (tag : Tag) (h : tag.lyricsFrames = []) :
    (∀ c, tag.comments.find? (fun x => x.description == "LYRICS") = some c →
        extract_lyrics_from_tag tag = some c.text) ∧
    (tag.comments.find? (fun x => x.description == "LYRICS") = none →
      ∀ t, tag.extendedTexts.find? (fun x => x.description == "LYRICS") = some t →
        extract_lyrics_from_tag tag = some t.value) := by
  constructor
  · intro c hc
    simp [extract_lyrics_from_tag, h, hc]
  · intro hc t ht
    simp [extract_lyrics_from_tag, h, hc, ht]

theorem comment_then_usertext_fallback_witness :
    extract_lyrics_from_tag txxxTag = some "X" :=
  (comment_then_usertext_fallback txxxTag rfl).2 rfl
    { description := "LYRICS", value := "X" } rfl

/-- C7: a tag with no unsynchronised-lyric frame, no `LYRICS` comment, no
`LYRICS` user-defined text frame and no textual frame under any of the
four rank-4 identifiers selects to `Absent`, and the per-file extraction
on a successfully read such tag returns success with no lyrics, never an
error. -/
theorem absent_when_no_candidates (tag : Tag)
    (h1 : tag.lyricsFrames = [])
    (h2 : tag.comments.find? (fun c => c.description == "LYRICS") = none)
    (h3 : tag.extendedTexts.find? (fun t => t.description == "LYRICS") = none)
    (h4 : ∀ frame_id ∈ lyricFrameIds, (Tag.get tag frame_id).bind Frame.text = none) :
    extract_lyrics_from_tag tag = none ∧
    ∀ f : Mp3File, f.readResult = Except.ok tag →
      extract_lyrics_from_file f = Except.ok none := by
  have hmain : extract_lyrics_from_tag tag = none := by
    simp only [extract_lyrics_from_tag, h1, h2, h3]
    rw [lookupFrameIds_eq_findSome]
    simpa using h4
  refine ⟨hmain, ?_⟩
  intro f hf
  simp [extract_lyrics_from_file, hf, hmain]

theorem absent_when_no_candidates_witness :
    extract_lyrics_from_tag emptyTag = none :=
  (absent_when_no_candidates emptyTag rfl rfl rfl (by decide)).1

/-- C8: the winning candidate's payload is returned exactly as stored at
every rank, with no trimming or re-encoding, and in particular an empty
payload still yields `Found` of the empty string rather than `Absent`. -/
theorem found_exact_payload (tag : Tag) (s : String) :
    (∀ f fs, tag.lyricsFrames = f :: fs → f.text = s →
        extract_lyrics_from_tag tag = some s) ∧
    (tag.lyricsFrames = [] →
      ((∀ c, tag.comments.find? (fun x => x.description == "LYRICS") = some c →
          c.text = s → extract_lyrics_from_tag tag = some s) ∧
       (tag.comments.find? (fun x => x.description == "LYRICS") = none →
        ((∀ t, tag.extendedTexts.find? (fun x => x.description == "LYRICS") = some t →
            t.value = s → extract_lyrics_from_tag tag = some s) ∧
         (tag.extendedTexts.find? (fun x => x.description == "LYRICS") = none →
          (lyricFrameIds.filterMap
              (fun frame_id => (Tag.get tag frame_id).bind Frame.text)).head? = some s →
          extract_lyrics_from_tag tag = some s))))) := by
  refine ⟨?_, ?_⟩
  · intro f fs hf hs
    subst hs
    simp [extract_lyrics_from_tag, hf]
  · intro h1
    refine ⟨?_, ?_⟩
    · intro c hc hs
      subst hs
      simp [extract_lyrics_from_tag, h1, hc]
    · intro h2
      refine ⟨?_, ?_⟩
      · intro t ht hs
        subst hs
        simp [extract_lyrics_from_tag, h1, h2, ht]
      · intro h3 hhead
        simp only [extract_lyrics_from_tag, h1, h2, h3]
        rw [lookupFrameIds_eq_head]
        exact hhead

theorem found_exact_payload_witness :
    extract_lyrics_from_tag emptyTextTag = some "" :=
  (found_exact_payload emptyTextTag "").1
    { lang := "eng", description := "", text := "" } [] rfl rfl

/-- C9: the selector is a pure function of the tag: equal tags give equal
results, so two invocations on the same tag agree. -/
theorem selector_deterministic (t1 t2 : Tag) (h : t1 = t2) :
    extract_lyrics_from_tag t1 = extract_lyrics_from_tag t2 := by
  rw [h]

theorem selector_deterministic_witness :
    extract_lyrics_from_tag mixedTag = extract_lyrics_from_tag mixedTag :=
  selector_deterministic mixedTag mixedTag rfl

/-- A file whose tag holds the single lyric text `hello`. -/
def helloFile : Mp3File :=
  { displayPath := "a.mp3"
    readResult := Except.ok
      { lyricsFrames := [{ lang := "eng", description := "", text := "hello" }]
        comments := [], extendedTexts := [], frames := [] } }

/-- A file whose tag holds the single lyric text `world`. -/
def worldFile : Mp3File :=
  { displayPath := "b.mp3"
    readResult := Except.ok
      { lyricsFrames := [{ lang := "eng", description := "", text := "world" }]
        comments := [], extendedTexts := [], frames := [] } }

/-- A file whose tag read fails. -/
def badFile : Mp3File :=
  { displayPath := "d.mp3"
    readResult := Except.error { cause := "no id3 header" } }

/-- C3: the aggregated document is exactly the concatenation, in list
order, of per-file sections made of the optional separator for positive
indices, the optional `File:` header, and the lyric text with a trailing
newline; with no flags, files yielding `hello` and `world` give the
document `hello`, newline, `world`, newline. -/
theorem aggregator_formatting (files : List Mp3File) (include_names : Bool)
    (add_separator : Bool) (separator_text : String) :
    extract_all_lyrics files include_names add_separator separator_text =
      spec_document files include_names add_separator separator_text ∧
    extract_all_lyrics [helloFile, worldFile] false false "---" = "hello\nworld\n" :=
  ⟨extract_all_lyrics_eq_spec files include_names add_separator separator_text,
    by decide⟩

/-- C4: a per-file tag-read failure never aborts the aggregation: the
failing file contributes its optional separator and header plus the
failure placeholder exactly when `include_names` is set, and the sections
of every file before and after it are still produced. -/
theorem aggregator_tolerates_failure (pre post : List Mp3File) (bad : Mp3File)
    (e : TagError) (include_names : Bool) (add_separator : Bool)
    (separator_text : String) (h : bad.readResult = Except.error e) :
    extract_all_lyrics (pre ++ bad :: post) include_names add_separator separator_text =
      spec_sections include_names add_separator separator_text 0 pre ++
      ((if pre.length > 0 && add_separator then "\n" ++ separator_text ++ "\n" else "") ++
       ((if include_names then "File: " ++ bad.displayPath ++ "\n\n" else "") ++
        (if include_names then "[Failed to extract lyrics]\n" else ""))) ++
      spec_sections include_names add_separator separator_text (pre.length + 1) post := by
  rw [extract_all_lyrics_eq_spec, spec_document,
    spec_sections_append include_names add_separator separator_text pre (bad :: post) 0]
  rw [Nat.zero_add]
  have hsec : spec_sections include_names add_separator separator_text pre.length
      (bad :: post) =
      ((if pre.length > 0 && add_separator then "\n" ++ separator_text ++ "\n" else "") ++
       ((if include_names then "File: " ++ bad.displayPath ++ "\n\n" else "") ++
        (if include_names then "[Failed to extract lyrics]\n" else ""))) ++
      spec_sections include_names add_separator separator_text (pre.length + 1) post := by
    rw [spec_sections, spec_file_section, spec_section_body, h]
    simp only [String.append_assoc]
  rw [hsec]
  simp only [String.append_assoc]

theorem aggregator_tolerates_failure_witness :
    badFile.readResult = Except.error { cause := "no id3 header" } ∧
    extract_all_lyrics ([helloFile] ++ badFile :: [worldFile]) true false "---" =
      "File: a.mp3\n\nhello\nFile: d.mp3\n\n[Failed to extract lyrics]\nFile: b.mp3\n\nworld\n" := by
  refine ⟨rfl, ?_⟩
  rw [aggregator_tolerates_failure [helloFile] [worldFile] badFile
    { cause := "no id3 header" } true false "---" rfl]
  decide

/-- A path naming a regular `.mp3` file. -/
def goodPath : FsPath := { full := "/music/a.mp3", fileName := "a.mp3" }

/-- A path whose entire file name is `.mp3`. -/
def dotPath : FsPath := { full := "/music/.mp3", fileName := ".mp3" }

/-- A filesystem holding exactly the regular file `goodPath`. -/
def mp3Fs : FileSystem :=
  { kind := fun q => if q = goodPath then FsKind.file else FsKind.missing
    entries := fun _ _ => [] }

/-- A filesystem holding exactly the regular file `dotPath`. -/
def dotFs : FileSystem :=
  { kind := fun q => if q = dotPath then FsKind.file else FsKind.missing
    entries := fun _ _ => [] }

/-- C6: a named regular file is returned as the one-element sequence
containing exactly that path iff its extension is the case-sensitive
literal `mp3`, otherwise discovery fails with `NotAnMp3`; a path that
exists as neither file nor directory fails with `PathNotFound`. -/
theorem discovery_single_file (fs : FileSystem) (p : FsPath) (recursive : Bool) :
    (fs.kind p = FsKind.file →
      ((find_mp3_files fs p recursive = Except.ok [p] ↔
          rustExtension p.fileName = some "mp3") ∧
       (rustExtension p.fileName ≠ some "mp3" →
          find_mp3_files fs p recursive = Except.error FindError.NotAnMp3))) ∧
    (fs.kind p = FsKind.missing →
      find_mp3_files fs p recursive = Except.error FindError.PathNotFound) := by
  constructor
  · intro hk
    constructor
    · constructor
      · intro hok
        by_contra hne
        simp [find_mp3_files, hk, hne] at hok
      · intro hext
        simp [find_mp3_files, hk, hext]
    · intro hne
      simp [find_mp3_files, hk, hne]
  · intro hk
    simp [find_mp3_files, hk]

theorem discovery_single_file_witness :
    mp3Fs.kind goodPath = FsKind.file ∧
    find_mp3_files mp3Fs goodPath false = Except.ok [goodPath] :=
  ⟨by decide,
    ((discovery_single_file mp3Fs goodPath false).1 (by decide)).1.mpr (by decide)⟩

/-- C10: a path whose whole file name is `.mp3` has no extension under the
platform accessor, so discovery rejects it: named as a single file it
fails with `NotAnMp3`, and it never appears in any successful discovery
result, even though its name textually ends in `.mp3`. -/
theorem dot_mp3_rejected :
    rustExtension ".mp3" = none ∧
    (∀ (fs : FileSystem) (p : FsPath) (recursive : Bool),
      p.fileName = ".mp3" → fs.kind p = FsKind.file →
      find_mp3_files fs p recursive = Except.error FindError.NotAnMp3) ∧
    (∀ (fs : FileSystem) (d q : FsPath) (recursive : Bool) (l : List FsPath),
      q.fileName = ".mp3" → find_mp3_files fs d recursive = Except.ok l → q ∉ l) := by
  refine ⟨by decide, ?_, ?_⟩
  · intro fs p recursive hp hk
    have hne : rustExtension p.fileName ≠ some "mp3" := by
      rw [hp]
      decide
    simp [find_mp3_files, hk, hne]
  · intro fs d q recursive l hq hok hmem
    have hqext : rustExtension q.fileName = none := by
      rw [hq]
      decide
    cases hk : fs.kind d with
    | file =>
      by_cases hext : rustExtension d.fileName = some "mp3"
      · simp only [find_mp3_files, hk, hext, if_pos] at hok
        cases hok
        have hqd : q = d := List.mem_singleton.mp hmem
        rw [hqd, hext] at hqext
        cases hqext
      · simp [find_mp3_files, hk, hext] at hok
    | dir =>
      simp only [find_mp3_files, hk] at hok
      cases hok
      have hcond := (List.mem_filter.mp hmem).2
      have hq3 := (of_decide_eq_true hcond).2
      rw [hq3] at hqext
      cases hqext
    | missing =>
      simp [find_mp3_files, hk] at hok

theorem dot_mp3_rejected_witness :
    dotFs.kind dotPath = FsKind.file ∧
    find_mp3_files dotFs dotPath false = Except.error FindError.NotAnMp3 :=
  ⟨by decide, dot_mp3_rejected.2.1 dotFs dotPath false rfl (by decide)⟩
